import Mathlib

/-!
# Verification of the currency/grant analysis core

Shallow embedding of the two analytical engines of the repository
(`src/analysis/anomaly_detector.py` and `src/analysis/grant_impact.py`,
with constants from `config/settings.py`), and proofs of the frozen claims
about them.

Modelling conventions:
* pandas `Timestamp`s are day-resolution throughout the analysis core, so a
  date is an `Int` (days since 1970-01-01); `timedelta(days=n)` is `+ n` and
  `(a - b).days` is `a - b`.
* a DataFrame column of dates that may still hold raw strings (the commodity
  tables are handed to the engines unparsed) is a list of `DateCell`s: either
  a raw `String` or an already-parsed timestamp.  `pd.to_datetime` on such a
  column is `DateCell.toDatetime` cellwise.
* rates and prices are `ℚ` (pandas floats, modelled exactly); the sample
  standard deviation (`Series.std()`, a square root) lives in `ℝ`.
* a Python dict result is a structure; a key that is present only on some
  paths (the `'slope'` key of the trend metrics) is an `Option` field.
* in-place mutation of a DataFrame held by the caller (the engines share the
  commodity map with the caller instead of copying it) is modelled by the
  method returning, next to its result, the commodity map as the caller sees
  it after the call.
-/

namespace CurrGrant

/-! ## Dates -/

/-- A cell of a DataFrame date column: either a raw `YYYY-MM-DD` string (as
the commodity tables arrive) or an already-parsed timestamp, counted in days
since 1970-01-01. -/
inductive DateCell where
  | raw (s : String)
  | ts (d : Int)
deriving DecidableEq, Repr

/-- Days from 1970-01-01 to the civil date y-m-d (proleptic Gregorian;
the standard civil-from-days inverse, restricted to nonnegative years so all
intermediate divisions are on `Nat`). -/
def daysFromCivil (y m d : Nat) : Int :=
  let y2 := if m ≤ 2 then y - 1 else y
  let era := y2 / 400
  let yoe := y2 - era * 400
  let mp := (m + 9) % 12
  let doy := (153 * mp + 2) / 5 + d - 1
  let doe := yoe * 365 + yoe / 4 - yoe / 100 + doy
  (era * 146097 + doe : Int) - 719468

/-- Split a character list at every occurrence of `sep`. -/
def splitOnChar (sep : Char) : List Char → List (List Char)
  | [] => [[]]
  | c :: cs =>
      let r := splitOnChar sep cs
      if c = sep then [] :: r
      else (c :: r.headD []) :: r.tail

/-- Decimal value of a nonempty digit string, `none` otherwise. -/
def digitsVal (cs : List Char) : Option Nat :=
  if cs.isEmpty then none
  else
    cs.foldl
      (fun acc c =>
        match acc with
        | none => none
        | some n => if c.isDigit then some (n * 10 + (c.toNat - 48)) else none)
      (some 0)

/-- Parse a `YYYY-MM-DD` string into days since the epoch (the behaviour of
`pd.to_datetime` on the date strings this repository feeds it). -/
def parseDate (s : String) : Int :=
  match (splitOnChar '-' s.toList).map digitsVal with
  | [some y, some m, some d] => daysFromCivil y m d
  | _ => 0

/-- Model of `pd.to_datetime` on one cell: parse a raw string, keep a timestamp. -/
def DateCell.toDatetime : DateCell → Int
  | .raw s => parseDate s
  | .ts d => d

/-- One cell after `pd.to_datetime`: always a timestamp. -/
def DateCell.normalize (c : DateCell) : DateCell := .ts c.toDatetime

/-! ## Commodity tables -/

/-- A commodity DataFrame: rows of (date cell, price), in file order. -/
abbrev CommodityDF := List (DateCell × ℚ)

/-- The commodity map handed to either engine: commodity name ↦ DataFrame.
Python dict keys are unique; order is insertion order. -/
abbrev CommodityMap := List (String × CommodityDF)

/-- The in-place assignment `commodity_df['date'] = pd.to_datetime(commodity_df['date'])`: the date
column is overwritten cellwise, prices untouched. -/
def normalizeDF (df : CommodityDF) : CommodityDF :=
  df.map fun r => (r.1.normalize, r.2)

/-- The commodity map after an engine pass converted every date column. -/
def normalizeMap (m : CommodityMap) : CommodityMap :=
  m.map fun e => (e.1, normalizeDF e.2)

/-- Every date cell of the map is already a parsed timestamp. -/
def allParsed (m : CommodityMap) : Bool :=
  m.all fun e => e.2.all fun r => match r.1 with | .ts _ => true | .raw _ => false

/-! ## Anomaly records -/

inductive Direction where
  | appreciation
  | depreciation
deriving DecidableEq, Repr

/-- The anomaly dict built by `AnomalyDetector.detect_steep_movements`. -/
structure Anomaly where
  start_date : Int
  end_date : Int
  start_rate : ℚ
  end_rate : ℚ
  change_percent : ℚ
  direction : Direction
  magnitude : ℚ
  duration_days : Int
deriving DecidableEq, Repr

/-! ## AnomalyDetector.detect_steep_movements

The detector's `self.fx_data` is a private copy whose `date` column was
parsed at construction, so the FX series is a list of (day, rate) pairs in
the order the caller supplied. -/

/-- Constant `ANOMALY_THRESHOLD_PERCENT` from `config/settings.py`. -/
def ANOMALY_THRESHOLD_PERCENT : ℚ := 10

/-- Constant `ANOMALY_WINDOW_DAYS` from `config/settings.py`. -/
def ANOMALY_WINDOW_DAYS : Int := 30

/-- Constant `COMMODITY_CORRELATION_PERCENT` from `config/settings.py`. -/
def COMMODITY_CORRELATION_PERCENT : ℚ := 5

/-- The percent change from `cur` to `fin` relative to `cur`, defined as 0
when `cur = 0` (the divide-by-zero guard in the scan). -/
def changePercent (cur fin : ℚ) : ℚ :=
  if cur ≠ 0 then (fin - cur) / cur * 100 else 0

/-- The anomaly dict appended for anchor (sd, sr) and window point (ed, er). -/
def mkAnomaly (sd ed : Int) (sr er : ℚ) : Anomaly :=
  let chg := changePercent sr er
  { start_date := sd
    end_date := ed
    start_rate := sr
    end_rate := er
    change_percent := chg
    direction := if chg < 0 then .appreciation else .depreciation
    magnitude := |chg|
    duration_days := ed - sd }

/-- The duplicate test of the scan: some already-emitted anomaly has its
start within 7 days of `sd` and its end within 7 days of `ed` (both strict:
`abs(...days) < 7`). -/
def isDup (acc : List Anomaly) (sd ed : Int) : Bool :=
  acc.any fun ex => |ex.start_date - sd| < 7 && |ex.end_date - ed| < 7

/-- The sort `fx_sorted = self.fx_data.sort_values('date')`: stable sort by date
(a stable sort's output is determined by comparator and input order alone,
so insertion sort models pandas' sort exactly). -/
def sortByDate (fx : List (Int × ℚ)) : List (Int × ℚ) :=
  List.insertionSort (fun p q => p.1 ≤ q.1) fx

/-- The final sort `anomalies.sort(key=lambda x: x['magnitude'], reverse=True)`: stable
sort by magnitude descending (`reverse=True` keeps ties in input order,
exactly as insertion sort on the flipped comparator does). -/
def sortByMagnitude (l : List Anomaly) : List Anomaly :=
  List.insertionSort (fun a b => a.magnitude ≥ b.magnitude) l

/-- The rows of `fx` strictly after day `s` and at most `s + w`
(the look-ahead window mask). -/
def windowRows (fx : List (Int × ℚ)) (s w : Int) : List (Int × ℚ) :=
  fx.filter fun q => s < q.1 && q.1 ≤ s + w

/-- The nested scan of `detect_steep_movements`, on the date-sorted series:
for every anchor row, for every row in its look-ahead window, append the
anomaly when the change clears the threshold and no already-emitted anomaly
is a 7-day duplicate. -/
def detectLoop (fx : List (Int × ℚ)) (t : ℚ) (w : Int) : List Anomaly :=
  fx.foldl
    (fun acc p =>
      (windowRows fx p.1 w).foldl
        (fun acc2 q =>
          if |changePercent p.2 q.2| ≥ t then
            if isDup acc2 p.1 q.1 then acc2 else acc2 ++ [mkAnomaly p.1 q.1 p.2 q.2]
          else acc2)
        acc)
    []

/-- Embedding of `AnomalyDetector.detect_steep_movements(threshold_percent, window_days)`:
sort the series by date, run the sliding-window scan with inline
deduplication, and sort the result by magnitude descending. -/
def detect_steep_movements (fx : List (Int × ℚ)) (t : ℚ) (w : Int) : List Anomaly :=
  sortByMagnitude (detectLoop (sortByDate fx) t w)

/-! Spec-side restatement of the scan, for the refinement theorem of C2:
first list every candidate in scan order, then keep a candidate exactly when
no already-kept one is a 7-day duplicate. -/

/-- The candidates contributed by one anchor row `p` of the sorted series
`fxs`: one for every row of `p`'s look-ahead window whose percent change has
absolute value at least the threshold. -/
def candsFrom (fxs : List (Int × ℚ)) (t : ℚ) (w : Int) (p : Int × ℚ) : List Anomaly :=
  (windowRows fxs p.1 w).filterMap fun q =>
    if |changePercent p.2 q.2| ≥ t then some (mkAnomaly p.1 q.1 p.2 q.2) else none

/-- All candidate anomalies in scan order: one for every ordered pair
(anchor row, window row) whose percent change has absolute value at least
the threshold. -/
def candidates (fx : List (Int × ℚ)) (t : ℚ) (w : Int) : List Anomaly :=
  (sortByDate fx).flatMap (candsFrom (sortByDate fx) t w)

/-- One step of first-wins deduplication: drop the candidate when an
already-kept anomaly is a 7-day duplicate of it, else keep it. -/
def dedupStep (acc : List Anomaly) (c : Anomaly) : List Anomaly :=
  if isDup acc c.start_date c.end_date then acc else acc ++ [c]

/-- First-wins deduplication, as the spec states it: scan the candidates in
order and keep one exactly when no kept candidate has both its start within
7 days of its start and its end within 7 days of its end. -/
def dedupFirst (cands : List Anomaly) : List Anomaly :=
  cands.foldl dedupStep []

/-- Test fixture for the deduplication claim: three anchors (days 0, 2, 4,
all at rate 100) each clear the 10% threshold against the day-20 point at
rate 120, giving three candidate windows whose start dates lie within 6
days of each other and whose end dates coincide. -/
def dedupDemoSeries : List (Int × ℚ) := [(0, 100), (2, 100), (4, 100), (20, 120)]

/-! ## AnomalyDetector.correlate_with_commodities -/

/-- One entry of the `movements` dict. -/
structure Movement where
  change_percent : ℚ
  significant : Bool
deriving DecidableEq, Repr

/-- The result dict of `correlate_with_commodities`. -/
structure CommodityCorrelation where
  movements : List (String × Movement)
  has_significant_movement : Bool
  likely_influence : Bool
deriving DecidableEq, Repr

/-- The lookup `commodity_df[commodity_df['date'] <= bound].tail(1)['price']`: the price
of the last row (in DataFrame order) whose date is at or before `bound`. -/
def priceAtOrBefore (df : CommodityDF) (bound : Int) : Option ℚ :=
  ((df.filter fun r => r.1.toDatetime ≤ bound).getLast?).map (·.2)

/-- Per-commodity step of `correlate_with_commodities`: the movement entry
for one DataFrame, or `none` when the commodity is skipped (no row at or
before a boundary, or a zero start price). -/
def commodityMovement (df : CommodityDF) (sd ed : Int) : Option Movement :=
  match priceAtOrBefore df sd, priceAtOrBefore df ed with
  | some sp, some ep =>
      if sp ≠ 0 then
        let chg := (ep - sp) / sp * 100
        some { change_percent := chg
               significant := |chg| ≥ COMMODITY_CORRELATION_PERCENT }
      else none
  | _, _ => none

/-- Embedding of `AnomalyDetector.correlate_with_commodities(anomaly)`.  The method loops
over `self.commodity_data` — the dict the caller supplied, stored without a
copy at construction — and overwrites each DataFrame's date column with its
`pd.to_datetime` conversion before the boundary lookups; the second
component is the commodity map as the caller sees it after the call. -/
def correlate_with_commodities (m : CommodityMap) (a : Anomaly) :
    CommodityCorrelation × CommodityMap :=
  let movements := m.filterMap fun e =>
    (commodityMovement (normalizeDF e.2) a.start_date a.end_date).map (e.1, ·)
  let hasSig := movements.any fun e => e.2.significant
  (⟨movements, hasSig, hasSig⟩, normalizeMap m)

/-! ## AnomalyDetector.get_external_events -/

/-- What `ExternalDataFetcher.get_all_correlation_data` returns: IMF release
and news payloads are passed through untouched, so they are opaque strings;
policy rates are a (date, rate) series in provider order. -/
structure ExternalData where
  imf_releases : List String
  policy_rates : List (Int × ℚ)
  news : List String

/-- A fetcher, as the detector uses it: a pure lookup keyed by
(country code, start date, end date). -/
abbrev Fetcher := String → Int → Int → ExternalData

/-- One entry of `policy_rate_changes`. -/
structure PolicyChange where
  date : Int
  previous_rate : ℚ
  new_rate : ℚ
  change : ℚ
deriving DecidableEq, Repr

/-- The result dict of `get_external_events`. -/
structure ExternalEvents where
  imf_releases : List String
  policy_rate_changes : List PolicyChange
  news : List String
deriving DecidableEq, Repr

/-- The local delta extraction over the provider's policy-rate series: a
change entry for every consecutive pair with unequal rates. -/
def policyChanges (rs : List (Int × ℚ)) : List PolicyChange :=
  (rs.zip rs.tail).filterMap fun pc =>
    if pc.1.2 ≠ pc.2.2 then
      some { date := pc.2.1
             previous_rate := pc.1.2
             new_rate := pc.2.2
             change := pc.2.2 - pc.1.2 }
    else none

/-- Embedding of `AnomalyDetector.get_external_events(anomaly, country_code)`, with
`fetcher` the `external_data_fetcher` stored at construction (`none` models
`external_data_fetcher=None`). -/
def get_external_events (fetcher : Option Fetcher) (a : Anomaly) (cc : String) :
    ExternalEvents :=
  match fetcher with
  | none => { imf_releases := [], policy_rate_changes := [], news := [] }
  | some f =>
      let ed := f cc a.start_date a.end_date
      { imf_releases := ed.imf_releases
        policy_rate_changes := policyChanges ed.policy_rates
        news := ed.news }

/-! ## GrantImpactAnalyzer

`self.fx_data` is again a private date-parsed copy: a list of (day, rate)
rows in caller order.  `timedelta(weeks=w)` is `7*w` days. -/

/-- The trend-direction strings of the metrics dicts. -/
inductive TrendDirection where
  | up
  | down
  | stable
  | unknown
deriving DecidableEq, Repr

/-- The metrics dict returned by `calculate_pre_trend` /
`calculate_post_impact`; the `'slope'` key is present only on some paths, so
it is an `Option`. -/
structure Metrics where
  avg_rate : ℚ
  trend_direction : TrendDirection
  volatility : ℝ
  change_percent : ℚ
  slope : Option ℚ

/-- The degraded result returned when a window has fewer than 2 points:
no `'slope'` key. -/
def degradedMetrics : Metrics :=
  { avg_rate := 0
    trend_direction := .unknown
    volatility := 0
    change_percent := 0
    slope := none }

/-- The pre-grant row selection:
`(date >= grant_date - weeks(w)) & (date < grant_date)`. -/
def preWindow (fx : List (Int × ℚ)) (g : Int) (w : Nat) : List (Int × ℚ) :=
  fx.filter fun p => (g - 7 * (w : Int) ≤ p.1) && (p.1 < g)

/-- The post-grant row selection:
`(date > grant_date) & (date <= grant_date + weeks(w))`. -/
def postWindow (fx : List (Int × ℚ)) (g : Int) (w : Nat) : List (Int × ℚ) :=
  fx.filter fun p => (g < p.1) && (p.1 ≤ g + 7 * (w : Int))

/-- Model of `Series.mean()`. -/
def listMean (l : List ℚ) : ℚ := l.sum / l.length

/-- The sample variance with pandas' default `ddof=1` (the square of
`Series.std()`). -/
def sampleVar (l : List ℚ) : ℚ :=
  (l.map fun x => (x - listMean l) ^ 2).sum / ((l.length : ℚ) - 1)

/-- Model of `Series.std()`: the square root of the `ddof=1` sample variance. -/
noncomputable def sampleStd (l : List ℚ) : ℝ := Real.sqrt (sampleVar l)

/-- The degree-1 `np.polyfit` slope of the rates against their sequential
index 0,1,…: the ordinary-least-squares slope
`(n·Σxy − Σx·Σy) / (n·Σx² − (Σx)²)`. -/
def slopeOLS (ys : List ℚ) : ℚ :=
  let n : ℚ := ys.length
  let xs : List ℚ := (List.range ys.length).map fun i => (i : ℚ)
  let sx := xs.sum
  let sy := ys.sum
  let sxy := ((xs.zip ys).map fun p => p.1 * p.2).sum
  let sxx := (xs.map fun x => x * x).sum
  (n * sxy - sx * sy) / (n * sxx - sx * sx)

/-- The trend classification and slope of a window with more than one row
(`slope > 0.01 → 'up'`, `slope < -0.01 → 'down'`, else `'stable'`); with at
most one row the code falls back to `('stable', 0)`. -/
def trendAndSlope (rates : List ℚ) : TrendDirection × ℚ :=
  if 1 < rates.length then
    let slope := slopeOLS rates
    (if slope > 1 / 100 then .up
     else if slope < -(1 / 100) then .down
     else .stable, slope)
  else (.stable, 0)

/-- First-to-last percent change of a window, 0 when the first rate is 0. -/
def firstLastChange (rates : List ℚ) : ℚ :=
  let first := rates.headD 0
  let final := rates.getLastD 0
  if first ≠ 0 then (final - first) / first * 100 else 0

/-- The shared body of `calculate_pre_trend` and `calculate_post_impact`
applied to the selected window rows. -/
noncomputable def windowMetrics (data : List (Int × ℚ)) : Metrics :=
  if data.length < 2 then degradedMetrics
  else
    let rates := data.map (·.2)
    let ts := trendAndSlope rates
    { avg_rate := listMean rates
      trend_direction := ts.1
      volatility := sampleStd rates
      change_percent := firstLastChange rates
      slope := some ts.2 }

/-- Embedding of `GrantImpactAnalyzer.calculate_pre_trend(grant_date, window_weeks)`. -/
noncomputable def calculate_pre_trend (fx : List (Int × ℚ)) (g : Int) (w : Nat) :
    Metrics :=
  windowMetrics (preWindow fx g w)

/-- Embedding of `GrantImpactAnalyzer.calculate_post_impact(grant_date, window_weeks)`. -/
noncomputable def calculate_post_impact (fx : List (Int × ℚ)) (g : Int) (w : Nat) :
    Metrics :=
  windowMetrics (postWindow fx g w)

/-! ## GrantImpactAnalyzer.assess_commodity_influence -/

/-- The stability strings of the commodity metrics. -/
inductive Stability where
  | high
  | medium
  | low
  | unknown
deriving DecidableEq, Repr

/-- The result dict of `assess_commodity_influence`. -/
structure CommodityMetrics where
  avg_volatility : ℝ
  stability : Stability
  individual_volatilities : List (String × ℝ)

/-- Per-commodity coefficient of variation: `std / mean * 100`. -/
noncomputable def coefficientOfVariation (prices : List ℚ) : ℝ :=
  sampleStd prices / (listMean prices : ℝ) * 100

/-- Embedding of `GrantImpactAnalyzer.assess_commodity_influence(grant_date, window_weeks)`.
Like `correlate_with_commodities`, the loop overwrites each commodity
DataFrame's date column in place (the map is shared with the caller, never
copied); the second component is the caller's map after the call. -/
noncomputable def assess_commodity_influence (m : CommodityMap) (g : Int) (w : Nat) :
    CommodityMetrics × CommodityMap :=
  let sd := g - 7 * (w : Int)
  let ed := g + 7 * (w : Int)
  let vols : List (String × ℝ) := m.filterMap fun e =>
    let df := normalizeDF e.2
    let period := df.filter fun r => (sd ≤ r.1.toDatetime) && (r.1.toDatetime ≤ ed)
    if 1 < period.length then some (e.1, coefficientOfVariation (period.map (·.2)))
    else none
  (if vols.isEmpty then
    { avg_volatility := 0, stability := .unknown, individual_volatilities := vols }
  else
    let avg : ℝ := (vols.map (·.2)).sum / (vols.length : ℝ)
    let stability : Stability :=
      if avg < 10 then .high else if avg < 20 then .medium else .low
    { avg_volatility := avg, stability := stability, individual_volatilities := vols },
  normalizeMap m)

/-! ## GrantImpactAnalyzer.calculate_impact_score -/

/-- Constant `IMPACT_SCORE_WEIGHTS` from `config/settings.py`. -/
structure ImpactWeights where
  commodity_stability : ℚ
  trend_deviation : ℚ
  magnitude : ℚ

/-- The weights `{'commodity_stability': 0.3, 'trend_deviation': 0.5, 'magnitude': 0.2}`. -/
def IMPACT_SCORE_WEIGHTS : ImpactWeights :=
  { commodity_stability := 3 / 10, trend_deviation := 1 / 2, magnitude := 1 / 5 }

/-- The stability map `{'high': 1.0, 'medium': 0.5, 'low': 0.2, 'unknown': 0.5}`. -/
def stabilityScore : Stability → ℚ
  | .high => 1
  | .medium => 1 / 2
  | .low => 1 / 5
  | .unknown => 1 / 2

/-- Python's `round(x, 2)`, on exact rationals: round `100·x` to the nearest
integer and divide back.  (Mathlib's `round` breaks exact .005 ties upward
where Python's float rounding is to-even; no claim depends on tie direction.) -/
def round2 (x : ℚ) : ℚ := (round (x * 100) : ℚ) / 100

/-- Embedding of `GrantImpactAnalyzer.calculate_impact_score(pre, post, commodity)`. -/
def calculate_impact_score (pre post : Metrics) (comm : CommodityMetrics) : ℚ :=
  let commodity_score := stabilityScore comm.stability
  let pre_slope := pre.slope.getD 0
  let post_slope := post.slope.getD 0
  let slope_change := |post_slope - pre_slope|
  let deviation_score := min (slope_change * 10) 1
  let mag := |post.change_percent|
  let magnitude_score := min (mag / 20) 1
  let final_score :=
    IMPACT_SCORE_WEIGHTS.commodity_stability * commodity_score +
    IMPACT_SCORE_WEIGHTS.trend_deviation * deviation_score +
    IMPACT_SCORE_WEIGHTS.magnitude * magnitude_score
  round2 (1 + final_score * 4)

/-! ## Helper lemmas -/

/-- A map whose function fixes every element is the identity. -/
theorem list_map_eq_self {α : Type} {f : α → α} {l : List α}
    (h : ∀ x ∈ l, f x = x) : l.map f = l := by
  induction l with
  | nil => rfl
  | cons a l ih =>
      simp only [List.map_cons, h a (by simp)]
      exact congrArg _ (ih fun x hx => h x (by simp [hx]))

/-- An all-timestamp commodity map is fixed by the date-column conversion. -/
theorem normalizeMap_eq_self {m : CommodityMap} (h : allParsed m = true) :
    normalizeMap m = m := by
  apply list_map_eq_self
  intro e he
  have hdf : ∀ r ∈ e.2, (r.1.normalize, r.2) = r := by
    intro r hr
    have := (List.all_eq_true.mp ((List.all_eq_true.mp h) e he)) r hr
    cases hcell : r.1 with
    | ts d =>
        show (DateCell.ts d, r.2) = r
        rw [← hcell]
    | raw s => rw [hcell] at this; simp at this
  simp [normalizeDF, list_map_eq_self hdf]

/-! ## Claim theorems -/

/-- C8: for every anomaly and country code, an `AnomalyDetector` constructed
with `external_data_fetcher=None` returns exactly
`{'imf_releases': [], 'policy_rate_changes': [], 'news': []}` from
`get_external_events`.  The embedded function is total, so the degraded mode
raises no error. -/
theorem C8_no_fetcher_degrades_to_empty (a : Anomaly) (cc : String) :
    get_external_events none a cc =
      { imf_releases := [], policy_rate_changes := [], news := [] } := rfl

/-- C5: `calculate_pre_trend` selects exactly the rate points with date in
`[grant_date − window_weeks, grant_date)` and `calculate_post_impact`
exactly those in `(grant_date, grant_date + window_weeks]`
(a week being 7 days); a point dated exactly `grant_date` belongs to
neither window. -/
theorem C5_window_boundaries (fx : List (Int × ℚ)) (g : Int) (w : Nat) :
    (∀ p : Int × ℚ,
      p ∈ preWindow fx g w ↔ p ∈ fx ∧ g - 7 * (w : Int) ≤ p.1 ∧ p.1 < g) ∧
    (∀ p : Int × ℚ,
      p ∈ postWindow fx g w ↔ p ∈ fx ∧ g < p.1 ∧ p.1 ≤ g + 7 * (w : Int)) ∧
    (∀ r : ℚ, (g, r) ∉ preWindow fx g w ∧ (g, r) ∉ postWindow fx g w) := by
  refine ⟨fun p => ?_, fun p => ?_, fun r => ⟨fun hmem => ?_, fun hmem => ?_⟩⟩
  · simp [preWindow, List.mem_filter, and_assoc]
  · simp [postWindow, List.mem_filter, and_assoc]
  · have := (List.mem_filter.mp hmem).2
    simp at this
  · have := (List.mem_filter.mp hmem).2
    simp at this

/-- Witness for C5: on the one-row series `[(3, 5)]` with grant day 3, the
row dated exactly on the grant day is in neither window. -/
theorem C5_window_boundaries_witness :
    ((3 : Int), (5 : ℚ)) ∉ preWindow [((3 : Int), (5 : ℚ))] 3 4 ∧
    ((3 : Int), (5 : ℚ)) ∉ postWindow [((3 : Int), (5 : ℚ))] 3 4 :=
  (C5_window_boundaries [((3 : Int), (5 : ℚ))] 3 4).2.2 5

/-- C6: whenever the selected pre- or post-window has fewer than 2 rate
points, `calculate_pre_trend` / `calculate_post_impact` return exactly
`{avg_rate: 0, trend_direction: 'unknown', volatility: 0, change_percent: 0}`
with no `'slope'` key (`slope = none`).  Both embedded functions are total,
so this path raises nothing. -/
theorem C6_degraded_below_two_points (fx : List (Int × ℚ)) (g : Int) (w : Nat) :
    ((preWindow fx g w).length < 2 →
      calculate_pre_trend fx g w =
        { avg_rate := 0, trend_direction := .unknown, volatility := 0,
          change_percent := 0, slope := none }) ∧
    ((postWindow fx g w).length < 2 →
      calculate_post_impact fx g w =
        { avg_rate := 0, trend_direction := .unknown, volatility := 0,
          change_percent := 0, slope := none }) := by
  constructor <;> intro h <;>
    simp [calculate_pre_trend, calculate_post_impact, windowMetrics, h, degradedMetrics]

/-- Witness for C6: a series with a single point in the pre-window of grant
day 10 yields the degraded dict. -/
theorem C6_degraded_below_two_points_witness :
    (preWindow [((0 : Int), (1 : ℚ))] 10 4).length < 2 ∧
    calculate_pre_trend [((0 : Int), (1 : ℚ))] 10 4 =
      { avg_rate := 0, trend_direction := .unknown, volatility := 0,
        change_percent := 0, slope := none } :=
  ⟨by decide, (C6_degraded_below_two_points [((0 : Int), (1 : ℚ))] 10 4).1 (by decide)⟩

/-- Fusing the threshold test of the inner scan loop into a `filterMap`:
folding the window rows with the inline emit-or-skip body equals folding the
anchor's candidate list with the plain dedup step. -/
theorem inner_fold_eq (t : ℚ) (w : Int) (fxs : List (Int × ℚ)) (p : Int × ℚ)
    (acc : List Anomaly) :
    (windowRows fxs p.1 w).foldl
        (fun acc2 q =>
          if |changePercent p.2 q.2| ≥ t then
            if isDup acc2 p.1 q.1 then acc2 else acc2 ++ [mkAnomaly p.1 q.1 p.2 q.2]
          else acc2)
        acc
      = (candsFrom fxs t w p).foldl dedupStep acc := by
  unfold candsFrom
  generalize windowRows fxs p.1 w = ws
  induction ws generalizing acc with
  | nil => rfl
  | cons q ws ih =>
      by_cases hc : |changePercent p.2 q.2| ≥ t
      · simp only [List.foldl_cons, List.filterMap_cons, if_pos hc, ih]
        rfl
      · simp only [List.foldl_cons, List.filterMap_cons, if_neg hc, ih]

/-- The one-pass scan with inline deduplication equals listing all
candidates first and then deduplicating first-wins. -/
theorem detectLoop_eq_dedup (fxs : List (Int × ℚ)) (t : ℚ) (w : Int) :
    detectLoop fxs t w = (fxs.flatMap (candsFrom fxs t w)).foldl dedupStep [] := by
  unfold detectLoop
  suffices h : ∀ (l : List (Int × ℚ)) (acc : List Anomaly),
      l.foldl
          (fun acc p =>
            (windowRows fxs p.1 w).foldl
              (fun acc2 q =>
                if |changePercent p.2 q.2| ≥ t then
                  if isDup acc2 p.1 q.1 then acc2
                  else acc2 ++ [mkAnomaly p.1 q.1 p.2 q.2]
                else acc2)
              acc)
          acc
        = (l.flatMap (candsFrom fxs t w)).foldl dedupStep acc from h fxs []
  intro l
  induction l with
  | nil => intro acc; rfl
  | cons p l ih =>
      intro acc
      rw [List.foldl_cons, List.flatMap_cons, List.foldl_append, inner_fold_eq, ih]

/-- Two-decimal rounding of a value at most 5 stays at most 5. -/
theorem round2_le_five {x : ℚ} (h : x ≤ 5) : round2 x ≤ 5 := by
  have hfl : ⌊x * 100 + 1 / 2⌋ ≤ 500 := by
    have h1 : x * 100 + 1 / 2 ≤ (1001 : ℚ) / 2 := by linarith
    have h2 := Int.floor_le_floor h1
    have h3 : ⌊(1001 : ℚ) / 2⌋ = 500 := by
      rw [Int.floor_eq_iff]; norm_num
    omega
  have : (round (x * 100) : ℚ) ≤ 500 := by
    rw [round_eq]
    exact_mod_cast hfl
  unfold round2
  linarith

/-- Two-decimal rounding of a value at least 1.24 stays at least 1. -/
theorem one_le_round2 {x : ℚ} (h : 31 / 25 ≤ x) : 1 ≤ round2 x := by
  have hfl : (124 : ℤ) ≤ ⌊x * 100 + 1 / 2⌋ := by
    apply Int.le_floor.mpr
    push_cast
    linarith
  have : (124 : ℚ) ≤ (round (x * 100) : ℚ) := by
    rw [round_eq]
    exact_mod_cast hfl
  unfold round2
  linarith

/-- The stability map lands in `[1/5, 1]`. -/
theorem stabilityScore_bounds (s : Stability) :
    1 / 5 ≤ stabilityScore s ∧ stabilityScore s ≤ 1 := by
  cases s <;> norm_num [stabilityScore]

/-- C4: for every pre-, post- and commodity-metrics (the stability being one
of high/medium/low/unknown is forced by the `Stability` type),
`calculate_impact_score` returns
`round(1 + 4·(0.3·commodity_score + 0.5·deviation_score + 0.2·magnitude_score), 2)`
with the components as the claim states them (missing slopes defaulting
to 0), and the result lies in `[1.0, 5.0]`. -/
theorem C4_impact_score_formula_and_bounds (pre post : Metrics) (comm : CommodityMetrics) :
    calculate_impact_score pre post comm =
      round2 (1 + 4 * (3 / 10 * stabilityScore comm.stability
        + 1 / 2 * min (|post.slope.getD 0 - pre.slope.getD 0| * 10) 1
        + 1 / 5 * min (|post.change_percent| / 20) 1)) ∧
    1 ≤ calculate_impact_score pre post comm ∧
    calculate_impact_score pre post comm ≤ 5 := by
  have heq : calculate_impact_score pre post comm =
      round2 (1 + 4 * (3 / 10 * stabilityScore comm.stability
        + 1 / 2 * min (|post.slope.getD 0 - pre.slope.getD 0| * 10) 1
        + 1 / 5 * min (|post.change_percent| / 20) 1)) := by
    simp only [calculate_impact_score, IMPACT_SCORE_WEIGHTS]
    congr 1
    ring
  have h1 := stabilityScore_bounds comm.stability
  have h2l : (0 : ℚ) ≤ min (|post.slope.getD 0 - pre.slope.getD 0| * 10) 1 :=
    le_min (by positivity) (by norm_num)
  have h2r : min (|post.slope.getD 0 - pre.slope.getD 0| * 10) 1 ≤ 1 :=
    min_le_right _ _
  have h3l : (0 : ℚ) ≤ min (|post.change_percent| / 20) 1 :=
    le_min (by positivity) (by norm_num)
  have h3r : min (|post.change_percent| / 20) 1 ≤ 1 := min_le_right _ _
  refine ⟨heq, ?_, ?_⟩
  · rw [heq]
    apply one_le_round2
    linarith [h1.1]
  · rw [heq]
    apply round2_le_five
    linarith [h1.2]

/-- Counterexample to C1: the commodity map is stored at construction
without a copy, and `correlate_with_commodities` overwrites each commodity
DataFrame's `date` column with its `pd.to_datetime` conversion, so a
caller's DataFrame whose dates are still strings is mutated by the call:
after correlating one anomaly against the map
`{'gold': DataFrame([('2024-01-05', 3)])}` the caller's map no longer equals
what it passed in (the date cell is now a timestamp). -/
theorem C1_counterexample_commodity_map_mutated :
    (correlate_with_commodities [("gold", [(DateCell.raw "2024-01-05", 3)])]
        (mkAnomaly 0 20 100 120)).2
      ≠ [("gold", [(DateCell.raw "2024-01-05", 3)])] := by decide

/-- C1 as amended: the rate series and grant table are copied at
construction, but the commodity map is shared with the caller, and every
call to `correlate_with_commodities` or `assess_commodity_influence`
overwrites each commodity DataFrame's `date` column in place with its
`pd.to_datetime` conversion — so the caller's commodity DataFrames are
value-unchanged exactly when their date columns are already datetime. -/
theorem C1_amended_parsed_map_unchanged (m : CommodityMap) (a : Anomaly)
    (g : Int) (w : Nat) (h : allParsed m = true) :
    (correlate_with_commodities m a).2 = m ∧
    (assess_commodity_influence m g w).2 = m := by
  have hm := normalizeMap_eq_self h
  constructor
  · show normalizeMap m = m
    exact hm
  · show normalizeMap m = m
    exact hm

/-- Witness for the amended C1: an all-timestamp map passes through both
calls unchanged. -/
theorem C1_amended_parsed_map_unchanged_witness :
    allParsed [("gold", [(DateCell.ts 3, (2 : ℚ))])] = true ∧
    ((correlate_with_commodities [("gold", [(DateCell.ts 3, (2 : ℚ))])]
        (mkAnomaly 0 20 100 120)).2 = [("gold", [(DateCell.ts 3, (2 : ℚ))])] ∧
      (assess_commodity_influence [("gold", [(DateCell.ts 3, (2 : ℚ))])] 5 4).2 =
        [("gold", [(DateCell.ts 3, (2 : ℚ))])]) :=
  ⟨by decide,
    C1_amended_parsed_map_unchanged [("gold", [(DateCell.ts 3, (2 : ℚ))])]
      (mkAnomaly 0 20 100 120) 5 4 (by decide)⟩

/-- The per-commodity skip condition of `correlate_with_commodities`: a
commodity yields no movement entry exactly when a boundary has no price at
or before it, or the price at or before the start boundary is 0. -/
theorem commodityMovement_eq_none_iff (df : CommodityDF) (sd ed : Int) :
    commodityMovement df sd ed = none ↔
      priceAtOrBefore df sd = none ∨ priceAtOrBefore df ed = none ∨
        priceAtOrBefore df sd = some 0 := by
  unfold commodityMovement
  rcases hs : priceAtOrBefore df sd with _ | sp <;>
    rcases he : priceAtOrBefore df ed with _ | ep <;> simp

/-- Counterexample to C3: the commodity series `[(day 0, price 0)]` has its
single price point dated at or before both boundaries of the anomaly
(start day 5, end day 10), yet `correlate_with_commodities` skips it (the
`movements` dict is empty) because of the unstated zero-start-price guard —
instead of reporting the 0% change the claim requires. -/
theorem C3_counterexample_zero_price_skipped :
    (0 : Int) ≤ (mkAnomaly 5 10 100 120).start_date ∧
    (0 : Int) ≤ (mkAnomaly 5 10 100 120).end_date ∧
    (correlate_with_commodities [("gold", [(DateCell.ts 0, (0 : ℚ))])]
        (mkAnomaly 5 10 100 120)).1.movements.lookup "gold" = none := by decide

/-- C3 as amended: a commodity series with a single price point of
*nonzero* price dated at or before both anomaly boundaries yields a 0%
change entry (the same price is looked up at both boundaries), not
significant; and a commodity is skipped (absent from `movements`) exactly
when no price exists at or before one of the two boundaries *or* the price
at or before the start boundary is 0 (the code's divide-by-zero guard). -/
theorem C3_amended_single_point_and_skip_rule (a : Anomaly) (name : String)
    (d : Int) (p : ℚ) (h1 : d ≤ a.start_date) (h2 : d ≤ a.end_date)
    (h3 : p ≠ 0) :
    (correlate_with_commodities [(name, [(DateCell.ts d, p)])] a).1.movements =
      [(name, { change_percent := 0, significant := false })] ∧
    ∀ df : CommodityDF,
      (correlate_with_commodities [(name, df)] a).1.movements = [] ↔
        priceAtOrBefore (normalizeDF df) a.start_date = none ∨
        priceAtOrBefore (normalizeDF df) a.end_date = none ∨
        priceAtOrBefore (normalizeDF df) a.start_date = some 0 := by
  constructor
  · have hmv : commodityMovement [(DateCell.ts d, p)] a.start_date a.end_date =
        some { change_percent := 0, significant := false } := by
      unfold commodityMovement priceAtOrBefore
      simp [DateCell.toDatetime, h1, h2, h3, List.filter]
      norm_num [COMMODITY_CORRELATION_PERCENT]
    simp [correlate_with_commodities, normalizeDF, DateCell.normalize,
      DateCell.toDatetime, hmv]
  · intro df
    rw [← commodityMovement_eq_none_iff]
    rcases hm : commodityMovement (normalizeDF df) a.start_date a.end_date with _ | mv <;>
      simp [correlate_with_commodities, hm]

/-- Witness for the amended C3: a single nonzero price point on day 0
against the anomaly spanning days 5–10 produces the 0%, non-significant
entry. -/
theorem C3_amended_single_point_and_skip_rule_witness :
    ((0 : Int) ≤ (mkAnomaly 5 10 100 120).start_date ∧
      (0 : Int) ≤ (mkAnomaly 5 10 100 120).end_date ∧ (7 : ℚ) ≠ 0) ∧
    (correlate_with_commodities [("gold", [(DateCell.ts 0, (7 : ℚ))])]
        (mkAnomaly 5 10 100 120)).1.movements =
      [("gold", { change_percent := 0, significant := false })] :=
  ⟨⟨by decide, by decide, by norm_num⟩,
    (C3_amended_single_point_and_skip_rule (mkAnomaly 5 10 100 120) "gold" 0 7
      (by decide) (by decide) (by norm_num)).1⟩

/-- C2: the scan treats two candidate anomalies as the same event exactly
when their start dates differ by less than 7 days AND their end dates
differ by less than 7 days (the code's `abs(Δdays) < 7` both ways — read
"within 7 days of each other" as a difference of at most 6 days, as the
claim's own 6-day instance pins down), keeping only the first-found of a
cluster: the detector equals listing every candidate in index scan order
and then deduplicating first-wins with exactly that 7-day × 7-day box
(`dedupFirst`/`isDup`).  On the fixture series, the three candidate windows
with starts within 6 days and ends within 6 days of each other collapse to
exactly one emitted anomaly, the first found in scan order. -/
theorem C2_seven_day_first_wins_dedup :
    (∀ (fx : List (Int × ℚ)) (t : ℚ) (w : Int),
      detect_steep_movements fx t w = sortByMagnitude (dedupFirst (candidates fx t w))) ∧
    (candidates dedupDemoSeries 10 30).length = 3 ∧
    ((candidates dedupDemoSeries 10 30).Pairwise fun a b =>
      |a.start_date - b.start_date| ≤ 6 ∧ |a.end_date - b.end_date| ≤ 6) ∧
    detect_steep_movements dedupDemoSeries 10 30 =
      (candidates dedupDemoSeries 10 30).take 1 := by
  have hpipe : ∀ (fx : List (Int × ℚ)) (t : ℚ) (w : Int),
      detect_steep_movements fx t w = sortByMagnitude (dedupFirst (candidates fx t w)) := by
    intro fx t w
    unfold detect_steep_movements dedupFirst candidates
    rw [detectLoop_eq_dedup]
  have hcand : candidates dedupDemoSeries 10 30 =
      [mkAnomaly 0 20 100 120, mkAnomaly 2 20 100 120, mkAnomaly 4 20 100 120] := by
    norm_num [candidates, candsFrom, windowRows, sortByDate, changePercent,
      dedupDemoSeries, List.insertionSort, List.orderedInsert, List.filterMap_cons]
  refine ⟨hpipe, ?_, ?_, ?_⟩
  · rw [hcand]
    rfl
  · rw [hcand]
    norm_num [List.pairwise_cons, mkAnomaly]
  · rw [hpipe, hcand]
    rfl

/-- C9: the list returned by `detect_steep_movements` is sorted by
`magnitude` in non-increasing order (the final
`anomalies.sort(key=..., reverse=True)`). -/
theorem C9_sorted_by_magnitude_descending (fx : List (Int × ℚ)) (t : ℚ) (w : Int) :
    (detect_steep_movements fx t w).Sorted fun a b => a.magnitude ≥ b.magnitude := by
  unfold detect_steep_movements sortByMagnitude
  haveI : IsTotal Anomaly fun a b => a.magnitude ≥ b.magnitude :=
    ⟨fun a b => le_total b.magnitude a.magnitude⟩
  haveI : IsTrans Anomaly fun a b => a.magnitude ≥ b.magnitude :=
    ⟨fun _ _ _ hab hbc => le_trans hbc hab⟩
  exact List.sorted_insertionSort _ _

/-- Sorting by date permutes the rows, so membership is unchanged. -/
theorem mem_sortByDate {p : Int × ℚ} {fx : List (Int × ℚ)} :
    p ∈ sortByDate fx ↔ p ∈ fx :=
  (List.perm_insertionSort _ fx).mem_iff

/-- Sorting by magnitude permutes the anomalies, so membership is
unchanged. -/
theorem mem_sortByMagnitude {a : Anomaly} {l : List Anomaly} :
    a ∈ sortByMagnitude l ↔ a ∈ l :=
  (List.perm_insertionSort _ l).mem_iff

/-- First-wins deduplication only drops elements: everything in the folded
result came from the accumulator or the input list. -/
theorem mem_foldl_dedupStep (l : List Anomaly) (acc : List Anomaly) (a : Anomaly)
    (h : a ∈ l.foldl dedupStep acc) : a ∈ acc ∨ a ∈ l := by
  induction l generalizing acc with
  | nil => exact Or.inl h
  | cons c l ih =>
      rw [List.foldl_cons] at h
      rcases ih _ h with h1 | h1
      · unfold dedupStep at h1
        by_cases hd : isDup acc c.start_date c.end_date
        · rw [if_pos hd] at h1
          exact Or.inl h1
        · rw [if_neg hd] at h1
          rcases List.mem_append.mp h1 with h2 | h2
          · exact Or.inl h2
          · simp at h2
            simp [h2]
      · simp [h1]

/-- Membership in the candidate list, declaratively: an anomaly is a
candidate exactly when it is built from an anchor row and a strictly later
row at most `w` days ahead whose percent change clears the threshold. -/
theorem mem_candidates_iff (fx : List (Int × ℚ)) (t : ℚ) (w : Int) (a : Anomaly) :
    a ∈ candidates fx t w ↔ ∃ p q : Int × ℚ, p ∈ fx ∧ q ∈ fx ∧ p.1 < q.1 ∧
      q.1 ≤ p.1 + w ∧ |changePercent p.2 q.2| ≥ t ∧ a = mkAnomaly p.1 q.1 p.2 q.2 := by
  unfold candidates candsFrom windowRows
  simp only [List.mem_flatMap, List.mem_filterMap, List.mem_filter, mem_sortByDate,
    Bool.and_eq_true, decide_eq_true_eq]
  constructor
  · rintro ⟨p, hp, q, ⟨hq, hlt, hle⟩, hif⟩
    by_cases hc : |changePercent p.2 q.2| ≥ t
    · rw [if_pos hc] at hif
      exact ⟨p, q, hp, hq, hlt, hle, hc, (Option.some_inj.mp hif).symm⟩
    · rw [if_neg hc] at hif
      cases hif
  · rintro ⟨p, q, hpf, hqf, hlt, hle, hth, rfl⟩
    exact ⟨p, hpf, q, ⟨hqf, hlt, hle⟩, by rw [if_pos hth]⟩

/-- C7: a candidate anomaly is emitted exactly when
`|change_percent| ≥ threshold_percent`, with the change computed relative to
the anchor (`(rate_j − rate_i)/rate_i · 100`) and defined as 0 when the
anchor rate is 0; on the two-point series (2024-01-01 → day 19723,
2024-01-15 → day 19737) at rates 100 → 109 with threshold 10 and window 30
the detector returns nothing (9% < 10%), and at rates 100 → 111 exactly one
anomaly with `change_percent = 11` and direction `'depreciation'`. -/
theorem C7_threshold_and_zero_guard :
    (∀ fin : ℚ, changePercent 0 fin = 0) ∧
    (∀ cur fin : ℚ, cur ≠ 0 → changePercent cur fin = (fin - cur) / cur * 100) ∧
    (∀ (fx : List (Int × ℚ)) (t : ℚ) (w : Int) (a : Anomaly),
      a ∈ candidates fx t w ↔ ∃ p q : Int × ℚ, p ∈ fx ∧ q ∈ fx ∧ p.1 < q.1 ∧
        q.1 ≤ p.1 + w ∧ |changePercent p.2 q.2| ≥ t ∧ a = mkAnomaly p.1 q.1 p.2 q.2) ∧
    parseDate "2024-01-01" = 19723 ∧ parseDate "2024-01-15" = 19737 ∧
    detect_steep_movements [((19723 : Int), (100 : ℚ)), (19737, 109)] 10 30 = [] ∧
    detect_steep_movements [((19723 : Int), (100 : ℚ)), (19737, 111)] 10 30 =
      [{ start_date := 19723, end_date := 19737, start_rate := 100, end_rate := 111,
         change_percent := 11, direction := .depreciation, magnitude := 11,
         duration_days := 14 }] := by
  refine ⟨fun fin => by simp [changePercent],
    fun cur fin hc => by simp [changePercent, hc],
    mem_candidates_iff, by decide, by decide, ?_, ?_⟩
  · norm_num [detect_steep_movements, detectLoop, sortByDate, List.insertionSort,
      List.orderedInsert, windowRows, changePercent, isDup, sortByMagnitude,
      List.foldl_cons, List.foldl_nil]
  · norm_num [detect_steep_movements, detectLoop, sortByDate, List.insertionSort,
      List.orderedInsert, windowRows, changePercent, isDup, sortByMagnitude,
      List.foldl_cons, List.foldl_nil, mkAnomaly]

/-- Witness for C7: the nonzero-anchor change formula evaluated at anchor
rate 5 and window rate 11. -/
theorem C7_threshold_and_zero_guard_witness :
    (5 : ℚ) ≠ 0 ∧ changePercent 5 11 = (11 - 5) / 5 * 100 :=
  ⟨by norm_num, C7_threshold_and_zero_guard.2.1 5 11 (by norm_num)⟩

/-- C10: every anomaly record emitted by `detect_steep_movements` satisfies
the claimed invariants: `magnitude = |change_percent| ≥ threshold`;
direction is `'appreciation'` iff the change is negative, else
`'depreciation'`; the end date is strictly after the start date and at most
`window_days` after it, with `duration_days` their difference (hence
`duration_days ≤ window_days`); and the boundary (date, rate) pairs are
rows of the series. -/
theorem C10_emitted_anomaly_invariants (fx : List (Int × ℚ)) (t : ℚ) (w : Int)
    (a : Anomaly) (ha : a ∈ detect_steep_movements fx t w) :
    a.magnitude = |a.change_percent| ∧ t ≤ a.magnitude ∧
    a.direction = (if a.change_percent < 0 then Direction.appreciation
      else Direction.depreciation) ∧
    a.start_date < a.end_date ∧ a.end_date ≤ a.start_date + w ∧
    a.duration_days = a.end_date - a.start_date ∧ a.duration_days ≤ w ∧
    (a.start_date, a.start_rate) ∈ fx ∧ (a.end_date, a.end_rate) ∈ fx := by
  unfold detect_steep_movements at ha
  have h1 : a ∈ detectLoop (sortByDate fx) t w := mem_sortByMagnitude.mp ha
  rw [detectLoop_eq_dedup] at h1
  have h2 : a ∈ candidates fx t w := by
    rcases mem_foldl_dedupStep _ _ _ h1 with h | h
    · cases h
    · exact h
  rcases (mem_candidates_iff fx t w a).mp h2 with ⟨p, q, hpf, hqf, hlt, hle, hth, rfl⟩
  refine ⟨rfl, hth, rfl, hlt, hle, rfl, ?_, ?_, ?_⟩
  · show q.1 - p.1 ≤ w
    omega
  · exact (show (p.1, p.2) = p from rfl) ▸ hpf
  · exact (show (q.1, q.2) = q from rfl) ▸ hqf

/-- Witness for C10: the single anomaly the detector emits on the
100 → 111 two-point series satisfies all the invariants. -/
theorem C10_emitted_anomaly_invariants_witness :
    mkAnomaly 19723 19737 100 111 ∈
      detect_steep_movements [((19723 : Int), (100 : ℚ)), (19737, 111)] 10 30 ∧
    ((mkAnomaly 19723 19737 100 111).magnitude =
        |(mkAnomaly 19723 19737 100 111).change_percent| ∧
      (10 : ℚ) ≤ (mkAnomaly 19723 19737 100 111).magnitude ∧
      (mkAnomaly 19723 19737 100 111).direction =
        (if (mkAnomaly 19723 19737 100 111).change_percent < 0 then
          Direction.appreciation else Direction.depreciation) ∧
      (mkAnomaly 19723 19737 100 111).start_date <
        (mkAnomaly 19723 19737 100 111).end_date ∧
      (mkAnomaly 19723 19737 100 111).end_date ≤
        (mkAnomaly 19723 19737 100 111).start_date + 30 ∧
      (mkAnomaly 19723 19737 100 111).duration_days =
        (mkAnomaly 19723 19737 100 111).end_date -
          (mkAnomaly 19723 19737 100 111).start_date ∧
      (mkAnomaly 19723 19737 100 111).duration_days ≤ 30 ∧
      ((mkAnomaly 19723 19737 100 111).start_date,
        (mkAnomaly 19723 19737 100 111).start_rate) ∈
          [((19723 : Int), (100 : ℚ)), (19737, 111)] ∧
      ((mkAnomaly 19723 19737 100 111).end_date,
        (mkAnomaly 19723 19737 100 111).end_rate) ∈
          [((19723 : Int), (100 : ℚ)), (19737, 111)]) := by
  have hmem : mkAnomaly 19723 19737 100 111 ∈
      detect_steep_movements [((19723 : Int), (100 : ℚ)), (19737, 111)] 10 30 := by
    have h : detect_steep_movements [((19723 : Int), (100 : ℚ)), (19737, 111)] 10 30 =
        [mkAnomaly 19723 19737 100 111] := by
      norm_num [detect_steep_movements, detectLoop, sortByDate, List.insertionSort,
        List.orderedInsert, windowRows, changePercent, isDup, sortByMagnitude,
        List.foldl_cons, List.foldl_nil, mkAnomaly]
    rw [h]
    exact List.mem_singleton_self _
  exact ⟨hmem,
    C10_emitted_anomaly_invariants [((19723 : Int), (100 : ℚ)), (19737, 111)] 10 30
      (mkAnomaly 19723 19737 100 111) hmem⟩

end CurrGrant
